import Mathlib

/-!
Shallow embedding of `src/black_scholes.cpp` (repository kw4ng/options_pricing).

The program is a Black-Scholes options pricing calculator consisting of three
pure functions (`cdf_normal_distribution`, `calculate_call_price`,
`calculate_put_price`) and a `main` that checks the argument count, echoes the
inputs, converts units (days to years, percent to fraction) and prints the
call and put option values.

The C++ doubles are embedded as real numbers; the C library functions
`erf`, `log`, `exp`, `sqrt`, `pow` are embedded by their mathematical
definitions, with `erf` given by its defining integral
`erf x = 2 / sqrt pi * intg_0^x exp (-t^2) dt` since Mathlib has no `erf`.
-/

open MeasureTheory intervalIntegral Set

namespace BlackScholes

/-- The C error function `erf`, embedded by its mathematical definition. -/
noncomputable def erf (x : ℝ) : ℝ :=
  2 / Real.sqrt Real.pi * ∫ t in (0:ℝ)..x, Real.exp (-t ^ 2)

/-- The C constant `M_SQRT1_2 = 1 / sqrt(2)`. -/
noncomputable def M_SQRT1_2 : ℝ := 1 / Real.sqrt 2

/-- Embedding of `cdf_normal_distribution` (src/black_scholes.cpp:17-25):
`return 0.5 * (1 + erf(value * M_SQRT1_2));`. -/
noncomputable def cdf_normal_distribution (value : ℝ) : ℝ :=
  0.5 * (1 + erf (value * M_SQRT1_2))

/-- Embedding of `calculate_call_price` (src/black_scholes.cpp:27-32).
The parameter is named `days_to_expiration` in the source even though the
caller passes years; the function body does no unit conversion. -/
noncomputable def calculate_call_price (stock_price strike_price
    days_to_expiration volatility risk_free_rate : ℝ) : ℝ :=
  let d1 := (Real.log (stock_price / strike_price) +
      ((risk_free_rate + (volatility ^ 2 / 2)) * days_to_expiration)) /
      (volatility * Real.sqrt days_to_expiration)
  let d2 := d1 - (volatility * Real.sqrt days_to_expiration)
  (cdf_normal_distribution d1 * stock_price) -
    (cdf_normal_distribution d2 * strike_price *
      Real.exp (-risk_free_rate * days_to_expiration))

/-- Embedding of `calculate_put_price` (src/black_scholes.cpp:34-37):
put-call parity with the strike discounted as `strike / exp(r*T)`. -/
noncomputable def calculate_put_price (stock_price strike_price
    days_to_expiration volatility risk_free_rate : ℝ) : ℝ :=
  calculate_call_price stock_price strike_price days_to_expiration
      volatility risk_free_rate +
    (strike_price / Real.exp (risk_free_rate * days_to_expiration)) -
    stock_price

/-- One line written to standard output by `main`.  The numeric formatting
(`cout.precision(2)`, `fixed`) is abstracted: each line carries the real
value it displays. -/
inductive OutLine where
  | banner : OutLine
  | blank : OutLine
  | echoStock : ℝ → OutLine
  | echoStrike : ℝ → OutLine
  | echoDays : ℝ → OutLine
  | echoVol : ℝ → OutLine
  | echoRate : ℝ → OutLine
  | callValue : ℝ → OutLine
  | putValue : ℝ → OutLine

/-- One line written to standard error by `main`: only the usage message. -/
inductive ErrLine where
  | usage : ErrLine
  deriving DecidableEq

/-- The observable outcome of a run of `main`: the standard output lines in
order, the standard error lines, the exit status, and the prices computed
(none when the program exits before pricing). -/
structure MainOutcome where
  stdout : List OutLine
  stderr : List ErrLine
  exitCode : Nat
  priced : Option (ℝ × ℝ)

/-- Embedding of `main` (src/black_scholes.cpp:39-77).  `strtod` stands for
the C `strtod` conversion applied to an argument string; `argv` is the full
argument vector including the program name, so `argv.length` plays the role
of `argc`.  The banner is printed first; if `argc != 6` the usage message
goes to standard error and the program exits with status 1; otherwise the
five arguments are parsed, echoed, converted (days/365, percent/100) and
the call and put prices printed. -/
noncomputable def mainRun (strtod : String → ℝ) (argv : List String) :
    MainOutcome :=
  if argv.length ≠ 6 then
    { stdout := [OutLine.banner]
      stderr := [ErrLine.usage]
      exitCode := 1
      priced := none }
  else
    let stock_price := strtod (argv.getD 1 "")
    let strike_price := strtod (argv.getD 2 "")
    let days_to_expiration := strtod (argv.getD 3 "")
    let volatility := strtod (argv.getD 4 "")
    let risk_free_rate := strtod (argv.getD 5 "")
    let days_to_expiration := days_to_expiration / 365.0
    let volatility := volatility / 100.0
    let risk_free_rate := risk_free_rate / 100.0
    let call := calculate_call_price stock_price strike_price
      days_to_expiration volatility risk_free_rate
    let put := calculate_put_price stock_price strike_price
      days_to_expiration volatility risk_free_rate
    { stdout := [OutLine.banner, OutLine.blank,
        OutLine.echoStock stock_price, OutLine.echoStrike strike_price,
        OutLine.echoDays (strtod (argv.getD 3 "")),
        OutLine.echoVol (strtod (argv.getD 4 "")),
        OutLine.echoRate (strtod (argv.getD 5 "")),
        OutLine.blank, OutLine.callValue call, OutLine.putValue put]
      stderr := []
      exitCode := 0
      priced := some (call, put) }

end BlackScholes

namespace BlackScholes

/-- C1: for every S, K, T, sigma, r with T > 0 and sigma > 0, the put price
equals the call price plus `K * exp (-r*T)` minus S.  The code discounts the
strike as `K / exp (r*T)`; over the embedded arithmetic the two agree. -/
theorem put_call_parity (S K T sigma r : ℝ) (hT : 0 < T) (hsigma : 0 < sigma) :
    calculate_put_price S K T sigma r =
      calculate_call_price S K T sigma r + K * Real.exp (-(r * T)) - S := by
  unfold calculate_put_price
  rw [Real.exp_neg, div_eq_mul_inv]

/-- Witness for C1 at S = 1, K = 1, T = 1, sigma = 1, r = 1. -/
theorem put_call_parity_witness :
    calculate_put_price 1 1 1 1 1 =
      calculate_call_price 1 1 1 1 1 + 1 * Real.exp (-(1 * 1)) - 1 :=
  put_call_parity 1 1 1 1 1 one_pos one_pos

/-- C3: for every real x, `cdf_normal_distribution x` equals
`0.5 * (1 + erf (x / sqrt 2))`. -/
theorem cdf_normal_distribution_eq_erf (x : ℝ) :
    cdf_normal_distribution x = 0.5 * (1 + erf (x / Real.sqrt 2)) := by
  unfold cdf_normal_distribution M_SQRT1_2
  rw [mul_one_div, div_eq_mul_inv]

/-- C2: for positive S, K, T, sigma and any r, the call price is
`Phi(d1) * S - Phi(d2) * K * exp(-r*T)` with
`d1 = (ln(S/K) + (r + sigma^2/2)*T) / (sigma*sqrt T)` and
`d2 = d1 - sigma*sqrt T`, where `Phi` is `cdf_normal_distribution`. -/
theorem calculate_call_price_formula (S K T sigma r : ℝ)
    (hS : 0 < S) (hK : 0 < K) (hT : 0 < T) (hsigma : 0 < sigma) :
    calculate_call_price S K T sigma r =
      cdf_normal_distribution
          ((Real.log (S / K) + (r + sigma ^ 2 / 2) * T) /
            (sigma * Real.sqrt T)) * S -
        cdf_normal_distribution
          ((Real.log (S / K) + (r + sigma ^ 2 / 2) * T) /
              (sigma * Real.sqrt T) - sigma * Real.sqrt T) * K *
          Real.exp (-r * T) :=
  rfl

/-- Witness for C2 at S = 1, K = 1, T = 1, sigma = 1, r = 0. -/
theorem calculate_call_price_formula_witness :
    calculate_call_price 1 1 1 1 0 =
      cdf_normal_distribution
          ((Real.log (1 / 1) + (0 + 1 ^ 2 / 2) * 1) / (1 * Real.sqrt 1)) * 1 -
        cdf_normal_distribution
          ((Real.log (1 / 1) + (0 + 1 ^ 2 / 2) * 1) / (1 * Real.sqrt 1) -
            1 * Real.sqrt 1) * 1 * Real.exp (-0 * 1) :=
  calculate_call_price_formula 1 1 1 1 0 one_pos one_pos one_pos one_pos

/-- The embedded error function is odd. -/
theorem erf_neg (x : ℝ) : erf (-x) = -erf x := by
  unfold erf
  rw [← mul_neg]
  congr 1
  have h2 := intervalIntegral.integral_comp_neg
    (f := fun t => Real.exp (-t ^ 2)) (a := (0:ℝ)) (b := -x)
  simp only [neg_sq, neg_neg, neg_zero] at h2
  rw [h2, intervalIntegral.integral_symm]

/-- The embedded error function vanishes at 0. -/
theorem erf_zero : erf 0 = 0 := by
  unfold erf
  rw [intervalIntegral.integral_same, mul_zero]

/-- C7: for every x, `cdf_normal_distribution x + cdf_normal_distribution (-x) = 1`,
and in particular `cdf_normal_distribution 0 = 0.5`. -/
theorem cdf_symmetry :
    (∀ x : ℝ, cdf_normal_distribution x + cdf_normal_distribution (-x) = 1) ∧
      cdf_normal_distribution 0 = 0.5 := by
  constructor
  · intro x
    unfold cdf_normal_distribution
    rw [neg_mul, erf_neg]
    ring
  · unfold cdf_normal_distribution
    rw [zero_mul, erf_zero]
    norm_num

/-- The Gaussian integrand is continuous. -/
theorem continuous_expNegSq : Continuous fun t : ℝ => Real.exp (-t ^ 2) := by
  continuity

/-- The embedded error function is monotone. -/
theorem erf_monotone : Monotone erf := by
  intro x y hxy
  unfold erf
  have hi1 : IntervalIntegrable (fun t : ℝ => Real.exp (-t ^ 2))
      MeasureTheory.volume 0 x := continuous_expNegSq.intervalIntegrable 0 x
  have hi2 : IntervalIntegrable (fun t : ℝ => Real.exp (-t ^ 2))
      MeasureTheory.volume x y := continuous_expNegSq.intervalIntegrable x y
  have hadd := intervalIntegral.integral_add_adjacent_intervals hi1 hi2
  have hnn : 0 ≤ ∫ t in x..y, Real.exp (-t ^ 2) :=
    intervalIntegral.integral_nonneg hxy fun u _ => (Real.exp_pos _).le
  have hcoef : 0 ≤ 2 / Real.sqrt Real.pi := by positivity
  apply mul_le_mul_of_nonneg_left _ hcoef
  linarith

/-- The truncated Gaussian integral is bounded by the half-line Gaussian
integral. -/
theorem integral_expNegSq_le (x : ℝ) (hx : 0 ≤ x) :
    (∫ t in (0:ℝ)..x, Real.exp (-t ^ 2)) ≤ Real.sqrt Real.pi / 2 := by
  rw [intervalIntegral.integral_of_le hx]
  have hInt : MeasureTheory.IntegrableOn (fun t : ℝ => Real.exp (-t ^ 2))
      (Set.Ioi 0) := by
    have h1 := (integrable_exp_neg_mul_sq (b := (1:ℝ)) one_pos).integrableOn
      (s := Set.Ioi (0:ℝ))
    simpa using h1
  calc (∫ t in Set.Ioc (0:ℝ) x, Real.exp (-t ^ 2))
      ≤ ∫ t in Set.Ioi (0:ℝ), Real.exp (-t ^ 2) := by
        apply MeasureTheory.setIntegral_mono_set hInt
        · filter_upwards with t using (Real.exp_pos _).le
        · exact (Set.Ioc_subset_Ioi_self).eventuallyLE
    _ = Real.sqrt Real.pi / 2 := by
        have h2 := integral_gaussian_Ioi 1
        simpa using h2

/-- The embedded error function is nonnegative on the nonnegative axis. -/
theorem erf_nonneg (x : ℝ) (hx : 0 ≤ x) : 0 ≤ erf x := by
  unfold erf
  have hnn : 0 ≤ ∫ t in (0:ℝ)..x, Real.exp (-t ^ 2) :=
    intervalIntegral.integral_nonneg hx fun u _ => (Real.exp_pos _).le
  positivity

/-- The embedded error function is at most 1. -/
theorem erf_le_one (x : ℝ) : erf x ≤ 1 := by
  rcases le_or_lt 0 x with hx | hx
  · unfold erf
    have hle := integral_expNegSq_le x hx
    have hpi : 0 < Real.sqrt Real.pi := Real.sqrt_pos.2 Real.pi_pos
    have h2 : 2 / Real.sqrt Real.pi * (Real.sqrt Real.pi / 2) = 1 := by
      field_simp
    calc 2 / Real.sqrt Real.pi * ∫ t in (0:ℝ)..x, Real.exp (-t ^ 2)
        ≤ 2 / Real.sqrt Real.pi * (Real.sqrt Real.pi / 2) :=
          mul_le_mul_of_nonneg_left hle (by positivity)
      _ = 1 := h2
  · have hx2 : 0 ≤ -x := by linarith
    have h1 : 0 ≤ erf (-x) := erf_nonneg (-x) hx2
    rw [erf_neg] at h1
    linarith

/-- The embedded error function is at least -1. -/
theorem neg_one_le_erf (x : ℝ) : -1 ≤ erf x := by
  have h1 := erf_le_one (-x)
  rw [erf_neg] at h1
  linarith

/-- C8: `cdf_normal_distribution` is monotonically non-decreasing, and its
value always lies in [0, 1]. -/
theorem cdf_monotone_and_bounded :
    (∀ x y : ℝ, x ≤ y →
        cdf_normal_distribution x ≤ cdf_normal_distribution y) ∧
      ∀ x : ℝ, 0 ≤ cdf_normal_distribution x ∧
        cdf_normal_distribution x ≤ 1 := by
  have hM : 0 < M_SQRT1_2 := by
    unfold M_SQRT1_2
    positivity
  constructor
  · intro x y hxy
    unfold cdf_normal_distribution
    have h1 := erf_monotone (mul_le_mul_of_nonneg_right hxy hM.le)
    linarith
  · intro x
    have h1 := erf_le_one (x * M_SQRT1_2)
    have h2 := neg_one_le_erf (x * M_SQRT1_2)
    unfold cdf_normal_distribution
    constructor <;> linarith

/-- Witness for C8 at x = 0, y = 1 for monotonicity and x = 2 for the
bounds. -/
theorem cdf_monotone_and_bounded_witness :
    cdf_normal_distribution 0 ≤ cdf_normal_distribution 1 ∧
      0 ≤ cdf_normal_distribution 2 ∧ cdf_normal_distribution 2 ≤ 1 :=
  ⟨cdf_monotone_and_bounded.1 0 1 zero_le_one, cdf_monotone_and_bounded.2 2⟩

/-- C4: in a successful run the five parsed arguments are converted exactly
once (days divided by 365.0, volatility and rate divided by 100.0) before the
pricing functions are invoked, which receive them verbatim; in particular
days = 365, volatility = 20, rate = 5 reach the pricing functions as T = 1.0,
sigma = 0.20, r = 0.05. -/
theorem main_unit_conversion (strtod : String → ℝ)
    (p a1 a2 a3 a4 a5 : String) :
    (mainRun strtod [p, a1, a2, a3, a4, a5]).priced =
        some (calculate_call_price (strtod a1) (strtod a2)
            (strtod a3 / 365.0) (strtod a4 / 100.0) (strtod a5 / 100.0),
          calculate_put_price (strtod a1) (strtod a2)
            (strtod a3 / 365.0) (strtod a4 / 100.0) (strtod a5 / 100.0)) ∧
      (strtod a3 = 365 → strtod a4 = 20 → strtod a5 = 5 →
        (mainRun strtod [p, a1, a2, a3, a4, a5]).priced =
          some (calculate_call_price (strtod a1) (strtod a2) 1.0 0.20 0.05,
            calculate_put_price (strtod a1) (strtod a2) 1.0 0.20 0.05)) := by
  constructor
  · unfold mainRun
    simp
  · intro h3 h4 h5
    unfold mainRun
    simp only [List.length_cons, List.length_nil, List.getD]
    norm_num [h3, h4, h5]

/-- A concrete stand-in for `strtod`, mapping the demo argument strings to
their numeric values. -/
noncomputable def strtodDemo : String → ℝ := fun s =>
  if s = "365" then 365 else if s = "20" then 20
  else if s = "5" then 5 else 100

/-- Witness for C4 on the concrete command line
`./a.out 100 100 365 20 5`. -/
theorem main_unit_conversion_witness :
    (mainRun strtodDemo ["prog", "100", "100", "365", "20", "5"]).priced =
      some (calculate_call_price (strtodDemo "100") (strtodDemo "100")
          1.0 0.20 0.05,
        calculate_put_price (strtodDemo "100") (strtodDemo "100")
          1.0 0.20 0.05) :=
  (main_unit_conversion strtodDemo "prog" "100" "100" "365" "20" "5").2
    (by simp [strtodDemo]) (by simp [strtodDemo]) (by simp [strtodDemo])

/-- C5: whenever the argument count differs from 6 (program name plus five
positional arguments), `main` writes the usage message to standard error and
exits with status 1, printing no option values and computing no prices. -/
theorem main_usage_error (strtod : String → ℝ) (argv : List String)
    (h : argv.length ≠ 6) :
    (mainRun strtod argv).stderr = [ErrLine.usage] ∧
      (mainRun strtod argv).exitCode = 1 ∧
      (mainRun strtod argv).priced = none ∧
      (mainRun strtod argv).stdout = [OutLine.banner] := by
  unfold mainRun
  simp [h]

/-- Witness for C5 on a run with a single argument. -/
theorem main_usage_error_witness :
    (mainRun (fun _ => 0) ["prog", "100"]).stderr = [ErrLine.usage] ∧
      (mainRun (fun _ => 0) ["prog", "100"]).exitCode = 1 ∧
      (mainRun (fun _ => 0) ["prog", "100"]).priced = none ∧
      (mainRun (fun _ => 0) ["prog", "100"]).stdout = [OutLine.banner] :=
  main_usage_error (fun _ => 0) ["prog", "100"] (by decide)

/-- C10: on every invocation, also one with the wrong argument count, the
banner line is the first line printed to standard output. -/
theorem main_banner_first (strtod : String → ℝ) (argv : List String) :
    (mainRun strtod argv).stdout.head? = some OutLine.banner := by
  unfold mainRun
  by_cases h : argv.length = 6 <;> simp [h]

end BlackScholes
